import Mathlib

/- Verification development for the GoMad molecular-mechanics core.
   Go source files: functions.go, unbonded.go (plus io.go/main.go glue).
   float64 arithmetic is embedded as exact real arithmetic over ℝ. -/

/-- Modelled from the spec: the 3-component vector type (§3 Vector3, called
TriTuple throughout the Go source); its struct declaration is not in src/,
but every use site accesses exactly the fields x, y, z of type float64. -/
@[ext]
structure TriTuple where
  x : ℝ
  y : ℝ
  z : ℝ

/-- Modelled from the spec: the Atom container (§3). The struct declaration
is not in src/; the fields below are exactly those accessed by the source
(index, position, velocity, force, accelerated, mass, element, charge).
Go zero values: index 0, charge 0, empty strings, zero vectors. -/
structure Atom where
  index : ℤ := 0
  position : TriTuple := ⟨0, 0, 0⟩
  velocity : TriTuple := ⟨0, 0, 0⟩
  force : TriTuple := ⟨0, 0, 0⟩
  accelerated : TriTuple := ⟨0, 0, 0⟩
  mass : ℝ := 0
  element : String := ""
  charge : ℝ := 0

/-- Modelled from the spec: the Residue container (§3): name, numeric id,
chain id, ordered sequence of atoms (the Go slice of atom pointers). -/
structure Residue where
  Name : String := ""
  ID : ℤ := 0
  ChainID : String := ""
  Atoms : List Atom := []

/-- Modelled from the spec: the Protein container (§3): name and ordered
sequence of residues. -/
structure Protein where
  Name : String := ""
  Residue : List Residue := []

/-- CalculateVector (functions.go): the displacement atom2.position − atom1.position. -/
def CalculateVector (atom1 atom2 : Atom) : TriTuple :=
  ⟨atom2.position.x - atom1.position.x,
   atom2.position.y - atom1.position.y,
   atom2.position.z - atom1.position.z⟩

/-- Distance (functions.go): Euclidean distance between two points. -/
noncomputable def Distance (p1 p2 : TriTuple) : ℝ :=
  Real.sqrt ((p1.x - p2.x) * (p1.x - p2.x) + (p1.y - p2.y) * (p1.y - p2.y) +
    (p1.z - p2.z) * (p1.z - p2.z))

/-- dot (functions.go): the dot product method on TriTuple. -/
def TriTuple.dot (vector1 vector2 : TriTuple) : ℝ :=
  vector1.x * vector2.x + vector1.y * vector2.y + vector1.z * vector2.z

/-- magnitude (functions.go): Euclidean norm of a TriTuple. -/
noncomputable def magnitude (vector : TriTuple) : ℝ :=
  Real.sqrt (vector.x * vector.x + vector.y * vector.y + vector.z * vector.z)

/-- BuildNormalVector (functions.go): the true 3-D cross product. -/
def BuildNormalVector (vector1 vector2 : TriTuple) : TriTuple :=
  ⟨vector1.y * vector2.z - vector1.z * vector2.y,
   vector1.z * vector2.x - vector1.x * vector2.z,
   vector1.x * vector2.y - vector1.y * vector2.x⟩

/-- Cross (functions.go): despite its name, the component-wise product. -/
def Cross (v1 v2 : TriTuple) : TriTuple :=
  ⟨v1.x * v2.x, v1.y * v2.y, v1.z * v2.z⟩

/-- Componentwise sum of two TriTuple values (used to state force-balance claims). -/
def triAdd (v1 v2 : TriTuple) : TriTuple :=
  ⟨v1.x + v2.x, v1.y + v2.y, v1.z + v2.z⟩

/-- Spec-side definition (§4.1): the element-wise product
(v1.x·v2.x, v1.y·v2.y, v1.z·v2.z), written from the words of the spec. -/
def elementwiseProductSpec (v1 v2 : TriTuple) : TriTuple :=
  ⟨v1.x * v2.x, v1.y * v2.y, v1.z * v2.z⟩

/-- Spec-side definition (§4.1): the true 3-D cross product v1 × v2,
written from the words of the spec (planeNormal). -/
def planeNormalSpec (v1 v2 : TriTuple) : TriTuple :=
  ⟨v1.y * v2.z - v1.z * v2.y,
   v1.z * v2.x - v1.x * v2.z,
   v1.x * v2.y - v1.y * v2.x⟩

/-- C3: the function named Cross computes the element-wise product of the
spec, not a cross product, while BuildNormalVector computes the true cross
product; the two operations differ (witnessed at (1,0,0), (0,1,0)). -/
theorem cross_is_elementwise_product_and_buildNormalVector_is_cross :
    (∀ v1 v2 : TriTuple, Cross v1 v2 = elementwiseProductSpec v1 v2) ∧
    (∀ v1 v2 : TriTuple, BuildNormalVector v1 v2 = planeNormalSpec v1 v2) ∧
    Cross ⟨1, 0, 0⟩ ⟨0, 1, 0⟩ ≠ BuildNormalVector ⟨1, 0, 0⟩ ⟨0, 1, 0⟩ := by
  refine ⟨fun v1 v2 => rfl, fun v1 v2 => rfl, ?_⟩
  intro h
  have hz := congrArg TriTuple.z h
  simp only [Cross, BuildNormalVector] at hz
  norm_num at hz

/-- DerivateAnglePositionX (functions.go): partial derivative of cos θ in x. -/
noncomputable def DerivateAnglePositionX (atom1 atom2 atom3 : Atom) (theta : ℝ) : ℝ :=
  1 / Distance atom1.position atom2.position *
    ((atom3.position.x - atom2.position.x) / Distance atom3.position atom2.position -
      (atom1.position.x - atom2.position.x) / Distance atom1.position atom2.position *
        Real.cos theta)

/-- DerivateAnglePositionY (functions.go): partial derivative of cos θ in y. -/
noncomputable def DerivateAnglePositionY (atom1 atom2 atom3 : Atom) (theta : ℝ) : ℝ :=
  1 / Distance atom1.position atom2.position *
    ((atom3.position.y - atom2.position.y) / Distance atom3.position atom2.position -
      (atom1.position.y - atom2.position.y) / Distance atom1.position atom2.position *
        Real.cos theta)

/-- DerivateAnglePositionZ (functions.go): partial derivative of cos θ in z. -/
noncomputable def DerivateAnglePositionZ (atom1 atom2 atom3 : Atom) (theta : ℝ) : ℝ :=
  1 / Distance atom1.position atom2.position *
    ((atom3.position.z - atom2.position.z) / Distance atom3.position atom2.position -
      (atom1.position.z - atom2.position.z) / Distance atom1.position atom2.position *
        Real.cos theta)

/-- CalculateAngleForce (functions.go): forces on the three atoms of an angle.
Note the source passes atom2 twice in the der_theta_*_32 calls. -/
noncomputable def CalculateAngleForce (k theta theta_0 : ℝ) (atom1 atom2 atom3 : Atom) :
    TriTuple × TriTuple × TriTuple :=
  let der_U_thate := k * (theta - theta_0)
  let der_that_cos := (-1) * (1 / Real.sin theta)
  let der_theta_x_12 := DerivateAnglePositionX atom1 atom2 atom3 theta
  let der_theta_x_32 := DerivateAnglePositionX atom3 atom2 atom2 theta
  let der_theta_y_12 := DerivateAnglePositionY atom1 atom2 atom3 theta
  let der_theta_y_32 := DerivateAnglePositionY atom3 atom2 atom2 theta
  let der_theta_z_12 := DerivateAnglePositionZ atom1 atom2 atom3 theta
  let der_theta_z_32 := DerivateAnglePositionZ atom3 atom2 atom2 theta
  let force_i : TriTuple :=
    ⟨der_U_thate * der_that_cos * der_theta_x_12,
     der_U_thate * der_that_cos * der_theta_y_12,
     der_U_thate * der_that_cos * der_theta_z_12⟩
  let force_k : TriTuple :=
    ⟨der_U_thate * der_that_cos * der_theta_x_32,
     der_U_thate * der_that_cos * der_theta_y_32,
     der_U_thate * der_that_cos * der_theta_z_32⟩
  let force_j : TriTuple :=
    ⟨-force_i.x - force_k.x, -force_i.y - force_k.y, -force_i.z - force_k.z⟩
  (force_i, force_j, force_k)

/-- C10: the three force vectors returned by CalculateAngleForce sum to the
zero vector, the middle force being the negated sum of the outer two; this
holds for all inputs (degenerate positions included), hence in particular
for every non-degenerate triple. -/
theorem angleForce_sums_to_zero (k theta theta_0 : ℝ) (atom1 atom2 atom3 : Atom) :
    triAdd (triAdd (CalculateAngleForce k theta theta_0 atom1 atom2 atom3).1
        (CalculateAngleForce k theta theta_0 atom1 atom2 atom3).2.1)
      (CalculateAngleForce k theta theta_0 atom1 atom2 atom3).2.2 = ⟨0, 0, 0⟩ ∧
    (CalculateAngleForce k theta theta_0 atom1 atom2 atom3).2.1 =
      ⟨-((CalculateAngleForce k theta theta_0 atom1 atom2 atom3).1.x +
          (CalculateAngleForce k theta theta_0 atom1 atom2 atom3).2.2.x),
       -((CalculateAngleForce k theta theta_0 atom1 atom2 atom3).1.y +
          (CalculateAngleForce k theta theta_0 atom1 atom2 atom3).2.2.y),
       -((CalculateAngleForce k theta theta_0 atom1 atom2 atom3).1.z +
          (CalculateAngleForce k theta theta_0 atom1 atom2 atom3).2.2.z)⟩ := by
  constructor
  · simp only [CalculateAngleForce, triAdd]
    ext <;> ring
  · simp only [CalculateAngleForce]
    ext <;> ring

/-- CalculateDerivate (functions.go): the three per-axis derivatives of cos φ
with respect to the auxiliary vector v1, given the partner vector v2. -/
noncomputable def CalculateDerivate (v1 v2 : TriTuple) (phi : ℝ) : ℝ × ℝ × ℝ :=
  ((1 / magnitude v1) * (v2.x / magnitude v2 - v1.x / magnitude v1 * Real.cos phi),
   (1 / magnitude v1) * (v2.y / magnitude v2 - v1.y / magnitude v1 * Real.cos phi),
   (1 / magnitude v1) * (v2.z / magnitude v2 - v1.z / magnitude v1 * Real.cos phi))

/-- CalculateProperDihedralsForce (functions.go): the four proper-torsion
force vectors, transcribed term by term from the source. -/
noncomputable def CalculateProperDihedralsForce (kd phi pn phase : ℝ)
    (atom1 atom2 atom3 atom4 : Atom) : TriTuple × TriTuple × TriTuple × TriTuple :=
  let der_U_phi := -0.5 * kd * pn * Real.sin (pn * phi - phase)
  let der_phi_cos := -1 / Real.sin phi
  let vector12 := CalculateVector atom1 atom2
  let vector32 := CalculateVector atom3 atom2
  let vector43 := CalculateVector atom4 atom3
  let v_t := Cross vector12 vector32
  let v_u := Cross vector43 vector32
  let dt := CalculateDerivate v_t v_u phi
  let du := CalculateDerivate v_u v_t phi
  let der_cos_tx := dt.1
  let der_cos_ty := dt.2.1
  let der_cos_tz := dt.2.2
  let der_cos_ux := du.1
  let der_cos_uy := du.2.1
  let der_cos_uz := du.2.2
  let force_i : TriTuple :=
    ⟨der_U_phi * der_phi_cos * (der_cos_ty * (-vector32.z) + der_cos_tz * vector32.y),
     der_U_phi * der_phi_cos * (der_cos_tz * (-vector32.x) + der_cos_tx * vector32.z),
     der_U_phi * der_phi_cos * (der_cos_tx * (-vector32.y) + der_cos_ty * vector32.x)⟩
  let force_j : TriTuple :=
    ⟨der_U_phi * der_phi_cos *
        (der_cos_ty * (-vector12.z + vector32.z) + der_cos_tz * (-vector32.y + vector12.y)),
     der_U_phi * der_phi_cos *
        (der_cos_tz * (-vector12.x + vector32.x) + der_cos_tx * (-vector32.z + vector12.z)),
     der_U_phi * der_phi_cos *
        (der_cos_tx * (-vector12.y + vector32.y) + der_cos_ty * (-vector32.x + vector12.x))⟩
  let force_k : TriTuple :=
    ⟨der_U_phi * der_phi_cos *
        (der_cos_ty * vector12.z - der_cos_tz * vector12.y +
          der_cos_uy * (vector32.z + vector43.z) - der_cos_uz * (vector32.y + vector43.y)),
     der_U_phi * der_phi_cos *
        (der_cos_tz * vector12.x - der_cos_tx * vector12.z +
          der_cos_uz * (vector32.x + vector43.x) - der_cos_ux * (vector32.z + vector43.z)),
     der_U_phi * der_phi_cos *
        (der_cos_tx * vector12.y - der_cos_ty * vector12.z +
          der_cos_ux * (vector32.y + vector43.y) - der_cos_uy * (vector32.x + vector43.x))⟩
  let force_l : TriTuple :=
    ⟨der_U_phi * der_phi_cos * (der_cos_uy * (-vector32.z) + der_cos_uz * vector32.y),
     der_U_phi * der_phi_cos * (der_cos_uz * (-vector32.x) + der_cos_ux * vector32.z),
     der_U_phi * der_phi_cos * (der_cos_ux * (-vector32.y) + der_cos_uy * vector32.x)⟩
  (force_i, force_j, force_k, force_l)

/-- First atom of the concrete torsion quadruple used to test force balance. -/
def torsA1 : Atom := { position := ⟨0, 0, 0⟩ }

/-- Second atom of the concrete torsion quadruple. -/
def torsA2 : Atom := { position := ⟨2, 1, 2⟩ }

/-- Third atom of the concrete torsion quadruple. -/
def torsA3 : Atom := { position := ⟨1, 0, 1⟩ }

/-- Fourth atom of the concrete torsion quadruple. -/
def torsA4 : Atom := { position := ⟨0, -2, -1⟩ }

/-- Norm evaluation used in the torsion computation: |(2,1,2)| = 3. -/
theorem magnitude_212 : magnitude ⟨2, 1, 2⟩ = 3 := by
  simp only [magnitude]
  rw [show ((2:ℝ) * 2 + 1 * 1 + 2 * 2) = 3 ^ 2 by norm_num]
  exact Real.sqrt_sq (by norm_num)

/-- Norm evaluation used in the torsion computation: |(1,2,2)| = 3. -/
theorem magnitude_122 : magnitude ⟨1, 2, 2⟩ = 3 := by
  simp only [magnitude]
  rw [show ((1:ℝ) * 1 + 2 * 2 + 2 * 2) = 3 ^ 2 by norm_num]
  exact Real.sqrt_sq (by norm_num)

/-- C1: the four force vectors returned by CalculateProperDihedralsForce do
NOT sum to the zero vector: at the non-degenerate quadruple
(0,0,0), (2,1,2), (1,0,1), (0,−2,−1) with kd = −2, φ = π/2, pn = 1,
phase = 0, the four forces sum to (2/9, 2/9, −1/3), contradicting the
zero-net-force property stated by the spec. -/
theorem torsionForces_sum_nonzero_at_failing_input :
    triAdd
        (triAdd (CalculateProperDihedralsForce (-2) (Real.pi / 2) 1 0 torsA1 torsA2 torsA3 torsA4).1
          (CalculateProperDihedralsForce (-2) (Real.pi / 2) 1 0 torsA1 torsA2 torsA3 torsA4).2.1)
        (triAdd (CalculateProperDihedralsForce (-2) (Real.pi / 2) 1 0 torsA1 torsA2 torsA3 torsA4).2.2.1
          (CalculateProperDihedralsForce (-2) (Real.pi / 2) 1 0 torsA1 torsA2 torsA3 torsA4).2.2.2) =
      ⟨2 / 9, 2 / 9, -(1 / 3)⟩ ∧
    triAdd
        (triAdd (CalculateProperDihedralsForce (-2) (Real.pi / 2) 1 0 torsA1 torsA2 torsA3 torsA4).1
          (CalculateProperDihedralsForce (-2) (Real.pi / 2) 1 0 torsA1 torsA2 torsA3 torsA4).2.1)
        (triAdd (CalculateProperDihedralsForce (-2) (Real.pi / 2) 1 0 torsA1 torsA2 torsA3 torsA4).2.2.1
          (CalculateProperDihedralsForce (-2) (Real.pi / 2) 1 0 torsA1 torsA2 torsA3 torsA4).2.2.2) ≠
      ⟨0, 0, 0⟩ := by
  have h12 : CalculateVector torsA1 torsA2 = ⟨2, 1, 2⟩ := by
    simp [CalculateVector, torsA1, torsA2]
  have h32 : CalculateVector torsA3 torsA2 = ⟨1, 1, 1⟩ := by
    simp [CalculateVector, torsA3, torsA2]
    norm_num
  have h43 : CalculateVector torsA4 torsA3 = ⟨1, 2, 2⟩ := by
    simp [CalculateVector, torsA4, torsA3]
    norm_num
  have hvt : Cross ⟨2, 1, 2⟩ ⟨1, 1, 1⟩ = ⟨2, 1, 2⟩ := by
    simp [Cross]
  have hvu : Cross ⟨1, 2, 2⟩ ⟨1, 1, 1⟩ = ⟨1, 2, 2⟩ := by
    simp [Cross]
  have harg : (1 : ℝ) * (Real.pi / 2) - 0 = Real.pi / 2 := by ring
  have hdt : CalculateDerivate ⟨2, 1, 2⟩ ⟨1, 2, 2⟩ (Real.pi / 2) =
      (1 / 9, 2 / 9, 2 / 9) := by
    simp only [CalculateDerivate, magnitude_212, magnitude_122, Real.cos_pi_div_two]
    norm_num
  have hdu : CalculateDerivate ⟨1, 2, 2⟩ ⟨2, 1, 2⟩ (Real.pi / 2) =
      (2 / 9, 1 / 9, 2 / 9) := by
    simp only [CalculateDerivate, magnitude_212, magnitude_122, Real.cos_pi_div_two]
    norm_num
  have hsum : triAdd
        (triAdd (CalculateProperDihedralsForce (-2) (Real.pi / 2) 1 0 torsA1 torsA2 torsA3 torsA4).1
          (CalculateProperDihedralsForce (-2) (Real.pi / 2) 1 0 torsA1 torsA2 torsA3 torsA4).2.1)
        (triAdd (CalculateProperDihedralsForce (-2) (Real.pi / 2) 1 0 torsA1 torsA2 torsA3 torsA4).2.2.1
          (CalculateProperDihedralsForce (-2) (Real.pi / 2) 1 0 torsA1 torsA2 torsA3 torsA4).2.2.2) =
      ⟨2 / 9, 2 / 9, -(1 / 3)⟩ := by
    simp only [CalculateProperDihedralsForce, h12, h32, h43, hvt, hvu, harg, hdt, hdu,
      Real.sin_pi_div_two, triAdd]
    norm_num
  refine ⟨hsum, ?_⟩
  rw [hsum]
  intro h
  have hx := congrArg TriTuple.x h
  norm_num at hx

/-- Modelled from the spec: the global constant epsilon, the vacuum
dielectric permittivity (§4.4); its declaration is not in src/. The
theorems below hold for any fixed value, so the standard SI value is used. -/
noncomputable def epsilon : ℝ := 8.8541878128e-12

/-- CalculateLJPotentialEnergy (unbonded.go): Lennard-Jones energy with the
sign of the final value discarded. Argument order (B, A, r) as in the source. -/
noncomputable def CalculateLJPotentialEnergy (B A r : ℝ) : ℝ :=
  let r_6 := r ^ (6 : ℕ)
  let r_12 := r_6 * r_6
  let LJ := A / r_12 - B / r_6
  if LJ < 0 then -LJ else LJ

/-- CalculateElectricForce (unbonded.go): Coulomb force on atom a1, scaled
along the unit displacement from a1 toward a2. -/
noncomputable def CalculateElectricForce (a1 a2 : Atom) (r : ℝ) : TriTuple :=
  let chargeMagnitude := a1.charge * a2.charge
  let forceMagnitude :=
    if chargeMagnitude > 0 then chargeMagnitude / (4 * Real.pi * epsilon * r * r)
    else -chargeMagnitude / (4 * Real.pi * epsilon * r * r)
  let unitVector : TriTuple :=
    ⟨(a2.position.x - a1.position.x) / r,
     (a2.position.y - a1.position.y) / r,
     (a2.position.z - a1.position.z) / r⟩
  ⟨forceMagnitude * unitVector.x, forceMagnitude * unitVector.y, forceMagnitude * unitVector.z⟩

/-- C8: for all coefficients A, B and every distance r > 0,
CalculateLJPotentialEnergy(B, A, r) equals |A/r¹² − B/r⁶|, and the returned
energy contribution is always non-negative. -/
theorem ljPotentialEnergy_is_abs (B A r : ℝ) (h : 0 < r) :
    CalculateLJPotentialEnergy B A r = |A / r ^ (12 : ℕ) - B / r ^ (6 : ℕ)| ∧
    0 ≤ CalculateLJPotentialEnergy B A r := by
  have hr : r ^ (6 : ℕ) * r ^ (6 : ℕ) = r ^ (12 : ℕ) := by ring
  simp only [CalculateLJPotentialEnergy, hr]
  rcases lt_or_le (A / r ^ (12 : ℕ) - B / r ^ (6 : ℕ)) 0 with hneg | hpos
  · rw [if_pos hneg, abs_of_neg hneg]
    exact ⟨rfl, by linarith⟩
  · rw [if_neg (not_lt.mpr hpos), abs_of_nonneg hpos]
    exact ⟨rfl, hpos⟩

/-- Witness for C8 at B = 3, A = 1, r = 1: the energy is |1 − 3| and non-negative. -/
theorem ljPotentialEnergy_is_abs_witness :
    (0 : ℝ) < 1 ∧
    (CalculateLJPotentialEnergy 3 1 1 = |(1 : ℝ) / 1 ^ (12 : ℕ) - 3 / 1 ^ (6 : ℕ)| ∧
      0 ≤ CalculateLJPotentialEnergy 3 1 1) :=
  ⟨by norm_num, ljPotentialEnergy_is_abs 3 1 1 (by norm_num)⟩

/-- Scalar multiple of a TriTuple (used to state the Coulomb-force claim). -/
def triScale (c : ℝ) (v : TriTuple) : TriTuple :=
  ⟨c * v.x, c * v.y, c * v.z⟩

/-- C9: for two atoms with non-zero charges at distance r > 0, the electric
force is s·(q1·q2)/(4π·ε·r²) times the unit displacement from atom1 toward
atom2, with s = +1 when q1·q2 > 0 and s = −1 otherwise. -/
theorem electricForce_signed_coulomb (a1 a2 : Atom) (r : ℝ)
    (h1 : a1.charge ≠ 0) (h2 : a2.charge ≠ 0) (hr : 0 < r) :
    CalculateElectricForce a1 a2 r =
      triScale
        ((if a1.charge * a2.charge > 0 then 1 else -1) * (a1.charge * a2.charge) /
          (4 * Real.pi * epsilon * r ^ (2 : ℕ)))
        (triScale (1 / r) (CalculateVector a1 a2)) := by
  by_cases hc : a1.charge * a2.charge > 0
  · simp only [CalculateElectricForce, triScale, CalculateVector, if_pos hc]
    ext <;> ring
  · simp only [CalculateElectricForce, triScale, CalculateVector, if_neg hc]
    ext <;> ring

/-- First atom of the concrete Coulomb pair: charge 2 at the origin. -/
def elecA1 : Atom := { position := ⟨0, 0, 0⟩, charge := 2 }

/-- Second atom of the concrete Coulomb pair: charge −1 at (1,0,0). -/
def elecA2 : Atom := { position := ⟨1, 0, 0⟩, charge := -1 }

/-- Witness for C9 at the concrete pair elecA1, elecA2 with r = 1. -/
theorem electricForce_signed_coulomb_witness :
    (elecA1.charge ≠ 0 ∧ elecA2.charge ≠ 0 ∧ (0 : ℝ) < 1) ∧
    CalculateElectricForce elecA1 elecA2 1 =
      triScale
        ((if elecA1.charge * elecA2.charge > 0 then 1 else -1) *
            (elecA1.charge * elecA2.charge) / (4 * Real.pi * epsilon * 1 ^ (2 : ℕ)))
        (triScale (1 / 1) (CalculateVector elecA1 elecA2)) :=
  ⟨⟨by simp [elecA1], by simp [elecA2], by norm_num⟩,
    electricForce_signed_coulomb elecA1 elecA2 1 (by simp [elecA1]) (by simp [elecA2])
      (by norm_num)⟩

/-- CopyTriTuple (functions.go): componentwise copy of a TriTuple. -/
def CopyTriTuple (tri : TriTuple) : TriTuple :=
  ⟨tri.x, tri.y, tri.z⟩

/-- CopyAtom (functions.go): copies mass, force, position, velocity,
accelerated and element into a fresh zero-valued Atom; the Go source never
assigns index or charge, so they keep their zero values. -/
def CopyAtom (currAtom : Atom) : Atom :=
  { mass := currAtom.mass
    force := CopyTriTuple currAtom.force
    position := CopyTriTuple currAtom.position
    velocity := CopyTriTuple currAtom.velocity
    accelerated := CopyTriTuple currAtom.accelerated
    element := currAtom.element }

/-- CopyResidue (functions.go): copies Name, ID, ChainID and the atom list. -/
def CopyResidue (currRes : Residue) : Residue :=
  { Name := currRes.Name
    ID := currRes.ID
    ChainID := currRes.ChainID
    Atoms := currRes.Atoms.map CopyAtom }

/-- CopyProtein (functions.go): copies the name and the residue list. -/
def CopyProtein (currentProtein : Protein) : Protein :=
  { Name := currentProtein.Name
    Residue := currentProtein.Residue.map CopyResidue }

/-- Spec-side definition for C7: the atom copy described by the claim, which
preserves mass, force, position, velocity, acceleration and element but
resets index to 0 and charge to 0. -/
def copyAtomClaim (a : Atom) : Atom :=
  { index := 0
    position := a.position
    velocity := a.velocity
    force := a.force
    accelerated := a.accelerated
    mass := a.mass
    element := a.element
    charge := 0 }

/-- C7: CopyProtein preserves the protein name and the residue metadata and
copies every atom field except index and charge, which become 0 in every
copied atom; in particular atom identity and charge are not preserved by the
trial snapshot of the minimizer. -/
theorem copyProtein_zeroes_index_and_charge (p : Protein) :
    (CopyProtein p).Name = p.Name ∧
    (CopyProtein p).Residue = p.Residue.map (fun r =>
      { Name := r.Name, ID := r.ID, ChainID := r.ChainID,
        Atoms := r.Atoms.map copyAtomClaim }) ∧
    (∀ a : Atom, (CopyAtom a).index = 0 ∧ (CopyAtom a).charge = 0 ∧
      (CopyAtom a).mass = a.mass ∧ (CopyAtom a).force = a.force ∧
      (CopyAtom a).position = a.position ∧ (CopyAtom a).velocity = a.velocity ∧
      (CopyAtom a).accelerated = a.accelerated ∧ (CopyAtom a).element = a.element) := by
  have hatom : ∀ a : Atom, CopyAtom a = copyAtomClaim a := fun a => rfl
  refine ⟨rfl, ?_, ?_⟩
  · simp only [CopyProtein]
    refine List.map_congr_left fun r _ => ?_
    simp only [CopyResidue]
    congr 1
  · intro a
    simp [CopyAtom, CopyTriTuple]

/-- CalculateTotalEnergy (functions.go): a stub returning the constant 1.0. -/
def CalculateTotalEnergy (p : Protein) : ℝ :=
  1.0

/-- CalculateNetForce (functions.go): a stub returning (1,1,1) for every index. -/
def CalculateNetForce (a : ℤ) : TriTuple :=
  ⟨1.0, 1.0, 1.0⟩

/-- SteepestDescent (functions.go): moves every atom by h along the unit
vector of its (stubbed) net force; the argument of CalculateNetForce is the
position j of the atom within its residue, as in the source loop. -/
noncomputable def SteepestDescent (protein : Protein) (h : ℝ) : Protein :=
  { protein with
    Residue := protein.Residue.map fun res =>
      { res with
        Atoms := res.Atoms.enum.map fun ja =>
          let force := CalculateNetForce (ja.1 : ℤ)
          let magn := magnitude force
          { ja.2 with
            position :=
              ⟨ja.2.position.x + force.x * h / magn,
               ja.2.position.y + force.y * h / magn,
               ja.2.position.z + force.z * h / magn⟩ } } }

/-- Loop body of PerformEnergyMinimization (functions.go), indexed by the
number of remaining iterations; the state is the pair (currentProtein, h). -/
noncomputable def minimizationLoop : ℕ → Protein × ℝ → Protein × ℝ
  | 0, s => s
  | n + 1, s =>
    let initialEnergy := CalculateTotalEnergy s.1
    let tempProtein := SteepestDescent (CopyProtein s.1) s.2
    let updatedEnergy := CalculateTotalEnergy tempProtein
    if updatedEnergy < initialEnergy then minimizationLoop n (tempProtein, s.2 * 1.2)
    else minimizationLoop n (s.1, s.2 * (0.2 * s.2))

/-- PerformEnergyMinimization (functions.go): 100 iterations starting from
step size h = 0.01, returning the final current protein. -/
noncomputable def PerformEnergyMinimization (currentProtein : Protein) : Protein :=
  (minimizationLoop 100 (currentProtein, 0.01)).1

/-- Helper for C5: the loop never replaces the current protein, because the
acceptance test compares the constant energy 1.0 against itself. -/
theorem minimizationLoop_fixes_protein (n : ℕ) (s : Protein × ℝ) :
    (minimizationLoop n s).1 = s.1 := by
  induction n generalizing s with
  | zero => rfl
  | succ n ih =>
    simp only [minimizationLoop, CalculateTotalEnergy]
    rw [if_neg (lt_irrefl (1.0 : ℝ))]
    exact ih _

/-- C5: since the total-energy evaluator is the constant 1.0, the strict
acceptance test never holds and PerformEnergyMinimization returns its input
protein unchanged (every atom position included). -/
theorem performEnergyMinimization_is_identity (currentProtein : Protein) :
    PerformEnergyMinimization currentProtein = currentProtein :=
  minimizationLoop_fixes_protein 100 (currentProtein, 0.01)

/-- Spec-side definition for C6: one minimizer iteration as the spec words
it — snapshot the structure, build the trial by a steepest-descent move of
size h, accept iff the trial energy is strictly lower (growing h to 1.2·h),
otherwise keep the current structure and shrink h to 0.2·h². -/
noncomputable def minimizerStepClaim (s : Protein × ℝ) : Protein × ℝ :=
  let trial := SteepestDescent (CopyProtein s.1) s.2
  if CalculateTotalEnergy trial < CalculateTotalEnergy s.1 then (trial, 1.2 * s.2)
  else (s.1, 0.2 * s.2 ^ (2 : ℕ))

/-- Helper for C6: the source loop is the n-fold iterate of the claimed step. -/
theorem minimizationLoop_eq_iterate (n : ℕ) (s : Protein × ℝ) :
    minimizationLoop n s = minimizerStepClaim^[n] s := by
  induction n generalizing s with
  | zero => rfl
  | succ n ih =>
    rw [Function.iterate_succ_apply]
    simp only [minimizationLoop]
    by_cases hc : CalculateTotalEnergy (SteepestDescent (CopyProtein s.1) s.2) <
        CalculateTotalEnergy s.1
    · rw [if_pos hc, ih]
      simp only [minimizerStepClaim]
      rw [if_pos hc]
      norm_num [mul_comm]
    · rw [if_neg hc, ih]
      simp only [minimizerStepClaim]
      rw [if_neg hc]
      congr 1
      ring_nf

/-- C6: PerformEnergyMinimization is exactly 100 iterations of the claimed
step starting from step size 0.01: each iteration accepts the trial iff its
total energy is strictly lower, multiplying h by 1.2 on acceptance, and on
rejection keeps the current structure and replaces h by 0.2·h². -/
theorem performEnergyMinimization_runs_100_claimed_steps (currentProtein : Protein) :
    PerformEnergyMinimization currentProtein =
      (minimizerStepClaim^[100] (currentProtein, 0.01)).1 := by
  simp only [PerformEnergyMinimization, minimizationLoop_eq_iterate]

/-- Flattening of the atoms of a protein with their (residue slot, atom slot)
location; the location plays the role of the Go atom pointer, which is a
distinct key for every slot of the structure. -/
def locatedAtoms (p : Protein) : List ((ℕ × ℕ) × Atom) :=
  p.Residue.enum.bind fun ir => ir.2.Atoms.enum.map fun ja => ((ir.1, ja.1), ja.2)

/-- BuildVerlet (unbonded.go), per atom: the neighbor entry built for the
atom a located at loc is the list of all other located atoms that survive
the pointer check, the ±3 index-exclusion check, and the
distance ≤ cutoff+buffer check, in traversal order. -/
noncomputable def verletNeighborList (cutoff buffer : ℝ) (p : Protein)
    (loc : ℕ × ℕ) (a : Atom) : List ((ℕ × ℕ) × Atom) :=
  (locatedAtoms p).filter fun la =>
    decide (la.1 ≠ loc) &&
      !(decide (a.index - 3 ≤ la.2.index) && decide (la.2.index ≤ a.index + 3)) &&
      decide (Distance a.position la.2.position ≤ cutoff + buffer)

/-- C4: after building the Verlet list, the neighbor list built for an atom never contains an
entry whose index differs from the index of that atom by 3 or fewer —
regardless of spatial distance; taking b = a, loc2 = loc this excludes the
atom itself, whose index difference is 0. -/
theorem verletNeighborList_excludes_close_indices (cutoff buffer : ℝ) (p : Protein)
    (loc loc2 : ℕ × ℕ) (a b : Atom) (hidx : |b.index - a.index| ≤ 3) :
    (loc2, b) ∉ verletNeighborList cutoff buffer p loc a := by
  intro hmem
  rw [verletNeighborList, List.mem_filter] at hmem
  obtain ⟨-, hcond⟩ := hmem
  simp only [Bool.and_eq_true, Bool.not_eq_true', Bool.and_eq_false_iff,
    decide_eq_true_eq, decide_eq_false_iff_not, not_le] at hcond
  obtain ⟨⟨-, hi⟩, -⟩ := hcond
  rw [abs_le] at hidx
  rcases hi with hlt | hlt <;> omega

/-- First atom of the concrete neighbor-list protein: index 0 at the origin. -/
def vAtomA : Atom := { index := 0, position := ⟨0, 0, 0⟩ }

/-- Second atom of the concrete neighbor-list protein: index 10 at (1,0,0). -/
def vAtomB : Atom := { index := 10, position := ⟨1, 0, 0⟩ }

/-- Concrete two-atom protein used for the neighbor-list claims. -/
def vProtein : Protein := { Name := "toy", Residue := [{ Atoms := [vAtomA, vAtomB] }] }

/-- Witness for C4: in the concrete protein, the atom at location (0,0) does
not appear in its own neighbor list (index difference 0 ≤ 3). -/
theorem verletNeighborList_excludes_close_indices_witness :
    |vAtomA.index - vAtomA.index| ≤ 3 ∧
    ((0, 0), vAtomA) ∉ verletNeighborList 0 5 vProtein (0, 0) vAtomA :=
  ⟨by simp, verletNeighborList_excludes_close_indices 0 5 vProtein (0, 0) (0, 0)
    vAtomA vAtomA (by simp)⟩

/-- Distance is a square root, hence non-negative. -/
theorem Distance_nonneg (p1 p2 : TriTuple) : 0 ≤ Distance p1 p2 :=
  Real.sqrt_nonneg _

/-- Distance at most zero forces the two points to coincide. -/
theorem eq_of_Distance_le_zero (p1 p2 : TriTuple) (h : Distance p1 p2 ≤ 0) :
    p1 = p2 := by
  have h0 : Distance p1 p2 = 0 := le_antisymm h (Distance_nonneg p1 p2)
  rw [Distance] at h0
  have hnn : 0 ≤ (p1.x - p2.x) * (p1.x - p2.x) + (p1.y - p2.y) * (p1.y - p2.y) +
      (p1.z - p2.z) * (p1.z - p2.z) :=
    add_nonneg (add_nonneg (mul_self_nonneg _) (mul_self_nonneg _)) (mul_self_nonneg _)
  have hs := (Real.sqrt_eq_zero hnn).mp h0
  have hx : p1.x - p2.x = 0 := by
    nlinarith [mul_self_nonneg (p1.x - p2.x), mul_self_nonneg (p1.y - p2.y),
      mul_self_nonneg (p1.z - p2.z)]
  have hy : p1.y - p2.y = 0 := by
    nlinarith [mul_self_nonneg (p1.x - p2.x), mul_self_nonneg (p1.y - p2.y),
      mul_self_nonneg (p1.z - p2.z)]
  have hz : p1.z - p2.z = 0 := by
    nlinarith [mul_self_nonneg (p1.x - p2.x), mul_self_nonneg (p1.y - p2.y),
      mul_self_nonneg (p1.z - p2.z)]
  ext <;> linarith

/-- Counterexample to C2 as stated: with cutoff = 0 and buffer = 5 the atom
at location (0,0) of the concrete protein has a non-empty neighbor list,
because the builder compares distances against cutoff + buffer. -/
theorem verlet_cutoff_zero_with_buffer_nonempty :
    verletNeighborList 0 5 vProtein (0, 0) vAtomA ≠ [] := by
  have hdist : Distance vAtomA.position vAtomB.position = 1 := by
    simp only [Distance, vAtomA, vAtomB]
    norm_num
  have hmem : ((0, 1), vAtomB) ∈ verletNeighborList 0 5 vProtein (0, 0) vAtomA := by
    rw [verletNeighborList, List.mem_filter]
    refine ⟨?_, ?_⟩
    · simp [locatedAtoms, vProtein, List.enum, List.enumFrom]
    · simp only [Bool.and_eq_true, Bool.not_eq_true', Bool.and_eq_false_iff,
        decide_eq_true_eq, decide_eq_false_iff_not, not_le]
      refine ⟨⟨?_, ?_⟩, ?_⟩
      · simp
      · right
        simp [vAtomA, vAtomB]
      · rw [hdist]
        norm_num
  exact List.ne_nil_of_mem hmem

/-- C2 amended: if both the cutoff and the buffer are 0, and atoms at
distinct locations of the protein never share a position, then BuildVerlet
produces an empty neighbor list for every atom of the protein. -/
theorem verlet_cutoff_and_buffer_zero_empty (p : Protein) (loc : ℕ × ℕ) (a : Atom)
    (hmem : (loc, a) ∈ locatedAtoms p)
    (hinj : ∀ l1 a1 l2 a2, (l1, a1) ∈ locatedAtoms p → (l2, a2) ∈ locatedAtoms p →
      a1.position = a2.position → l1 = l2) :
    verletNeighborList 0 0 p loc a = [] := by
  rw [verletNeighborList, List.filter_eq_nil_iff]
  intro la hla
  simp only [Bool.and_eq_true, Bool.not_eq_true', Bool.and_eq_false_iff,
    decide_eq_true_eq, decide_eq_false_iff_not, not_le, not_and]
  intro hne
  by_contra hlt
  push_neg at hlt
  rw [show (0 : ℝ) + 0 = 0 by norm_num] at hlt
  have hpos : a.position = la.2.position := eq_of_Distance_le_zero _ _ hlt
  exact hne.1 (hinj la.1 la.2 loc a hla hmem hpos.symm)

/-- Witness for the amended C2: in the concrete protein (atoms at distinct
positions), with cutoff = 0 and buffer = 0 the neighbor list of the atom at
location (0,0) is empty. -/
theorem verlet_cutoff_and_buffer_zero_empty_witness :
    (((0, 0), vAtomA) ∈ locatedAtoms vProtein ∧
      (∀ l1 a1 l2 a2, (l1, a1) ∈ locatedAtoms vProtein →
        (l2, a2) ∈ locatedAtoms vProtein → a1.position = a2.position → l1 = l2)) ∧
    verletNeighborList 0 0 vProtein (0, 0) vAtomA = [] := by
  have hmem : ((0, 0), vAtomA) ∈ locatedAtoms vProtein := by
    simp [locatedAtoms, vProtein, List.enum, List.enumFrom]
  have hAB : vAtomA.position ≠ vAtomB.position := by
    intro h
    have hx := congrArg TriTuple.x h
    simp only [vAtomA, vAtomB] at hx
    norm_num at hx
  have hinj : ∀ l1 a1 l2 a2, (l1, a1) ∈ locatedAtoms vProtein →
      (l2, a2) ∈ locatedAtoms vProtein → a1.position = a2.position → l1 = l2 := by
    intro l1 a1 l2 a2 h1 h2 hpos
    simp [locatedAtoms, vProtein, List.enum, List.enumFrom, Prod.ext_iff] at h1 h2
    rcases h1 with ⟨hl1, ha1⟩ | ⟨hl1, ha1⟩ <;> rcases h2 with ⟨hl2, ha2⟩ | ⟨hl2, ha2⟩ <;>
        subst ha1 <;> subst ha2
    · exact Prod.ext_iff.mpr ⟨hl1.1.trans hl2.1.symm, hl1.2.trans hl2.2.symm⟩
    · exact absurd hpos hAB
    · exact absurd hpos.symm hAB
    · exact Prod.ext_iff.mpr ⟨hl1.1.trans hl2.1.symm, hl1.2.trans hl2.2.symm⟩
  exact ⟨⟨hmem, hinj⟩, verlet_cutoff_and_buffer_zero_empty vProtein (0, 0) vAtomA hmem hinj⟩
